import Mathlib

/-!
Verification development for the Luc_Meme_Engine media job pipeline.

The repository consists of three express server files (src/server.js and two
further revisions, src/unnamed/part_000 and src/unnamed/part_001) that share a
common core: download remote media, probe durations, trim audio, stitch and
overlay via an external ffmpeg engine, and serve the resulting artifacts.
The definitions below are a shallow embedding of that code: pure command
construction, handler control flow with explicit step outcomes, and the
durable output store.  Durations are rationals (ffprobe reports fractional
seconds); byte contents are lists of naturals.
-/

namespace LucMeme

/-! ## Trim and audio-combination commands (server.js, part_000, part_001) -/

/-- Parameters of the engine invocation built by `trimAudio` (server.js
lines 55-71): `setStartTime(0)` and `duration d`. -/
structure TrimCall where
  startTime : ℚ
  targetDuration : ℚ
deriving DecidableEq

/-- The trim invocation the pipeline builds for a target duration `d`:
start offset 0, duration `d`, exactly as `trimAudio` constructs it. -/
def trimAudioCall (d : ℚ) : TrimCall :=
  { startTime := 0, targetDuration := d }

/-- Output options built by `addAudioToVideo` (server.js lines 114-141): map
the video stream of input 0 and the filtered music stream only, stream-copy
the video, encode audio as aac, and cap at the shortest input. -/
def addAudioToVideoOutputOptions : List String :=
  ["-map", "0:v:0", "-map", "[music]", "-c:v", "copy", "-c:a", "aac", "-shortest"]

/-- Modelled from the spec: the transcoding engine (external to this
repository, spec section 4.3 trim) truncates when the source is shorter than
the requested duration and never pads, so the emitted audio length is the
minimum of the source length and the requested duration. -/
def engineTrimLen (srcLen : ℚ) (c : TrimCall) : ℚ :=
  min srcLen c.targetDuration

/-- Modelled from the spec: the shortest policy (spec sections 4.3 and the
glossary) caps the combined output, hence its audio track, at the shorter of
the two input streams. -/
def engineShortestLen (videoLen audioLen : ℚ) : ℚ :=
  min videoLen audioLen

/-- Audio-track duration of the artifact produced by the single-video
pipeline (server.js lines 171-178): probe the video duration, trim the audio
to it from offset 0, then combine under the shortest policy. -/
def singleVariantAudioLen (videoDur audioDur : ℚ) : ℚ :=
  engineShortestLen videoDur (engineTrimLen audioDur (trimAudioCall videoDur))

/-- Audio-track duration of the artifact produced by the stitch pipeline
(server.js lines 252-260): probe the stitched video duration, trim the audio
to it from offset 0, then combine under the shortest policy. -/
def stitchVariantAudioLen (stitchedDur audioDur : ℚ) : ℚ :=
  engineShortestLen stitchedDur (engineTrimLen audioDur (trimAudioCall stitchedDur))

/-! ## Overlay placement (part_000 lines 144-163 and 222-228) -/

/-- Overlay options as destructured by the handlers; every field is optional
in the request and the source supplies defaults by destructuring
(`position = bottom-right`, `size = 150`, `margin = 20`). -/
structure OverlayOptions where
  position : Option String := none
  size : Option Int := none
  margin : Option Int := none

/-- Position after the destructuring default: `bottom-right` when absent. -/
def effectivePosition (o : OverlayOptions) : String :=
  o.position.getD "bottom-right"

/-- Margin after the destructuring default: 20 when absent. -/
def effectiveMargin (o : OverlayOptions) : Int :=
  o.margin.getD 20

/-- The position switch of `addAudioAndOverlayToVideo` (part_000 lines
144-163) and `addOverlayToImage` (part_000 lines 222-228), with the ffmpeg
placement expressions (`margin`, `W-w-margin`, `H-h-margin`) evaluated at
frame size `W`x`H` and post-scale overlay size `w`x`h`.  Any position other
than the three named corners falls into the default (bottom-right) case. -/
def overlayPlacement (position : String) (margin frameW frameH w h : Int) :
    Int × Int :=
  if position = "top-left" then (margin, margin)
  else if position = "top-right" then (frameW - w - margin, margin)
  else if position = "bottom-left" then (margin, frameH - h - margin)
  else (frameW - w - margin, frameH - h - margin)

/-! ## Stitch variant: scene sorting, download paths, concatenation input -/

/-- One entry of the `videos` array of a stitch request.  The handlers use
`scene_number` only through `parseInt(..., 10)` for ordering and through
`String(...)` for the filename; it is modelled here as the integer value. -/
structure SceneEntry where
  scene_number : Int
  final_video_url : String
deriving DecidableEq, Repr

/-- Numeric key the comparator extracts: `parseInt(v.scene_number, 10)`. -/
def sceneKey (v : SceneEntry) : Int := v.scene_number

/-- Comparator order of the handler sort (server.js lines 233-237):
`(a, b) => parseInt(a.scene_number) - parseInt(b.scene_number)` orders by
the parsed key. -/
def sceneLE (a b : SceneEntry) : Prop := a.scene_number ≤ b.scene_number

/-- Strict version of the comparator order, used to state ascending order
under distinct keys. -/
def sceneLT (a b : SceneEntry) : Prop := a.scene_number < b.scene_number

instance : DecidableRel sceneLE := fun a b =>
  inferInstanceAs (Decidable (a.scene_number ≤ b.scene_number))

instance : IsTotal SceneEntry sceneLE := ⟨fun _ _ => Int.le_total _ _⟩

instance : IsTrans SceneEntry sceneLE := ⟨fun _ _ _ => le_trans⟩

instance : IsAntisymm SceneEntry sceneLT :=
  ⟨fun _ _ h h' => absurd (lt_trans h h') (lt_irrefl _)⟩

/-- The handler sort `videos.sort(comparator)`.  `Array.prototype.sort` with
this comparator produces a stable, comparator-consistent ordering (ES2019);
it is modelled by stable insertion sort under `sceneLE`. -/
def sortScenes (vs : List SceneEntry) : List SceneEntry :=
  List.insertionSort sceneLE vs

/-- JS `s.padStart(3, char)` with the zero pad character. -/
def padStart3 (s : String) : String :=
  if s.length ≥ 3 then s
  else String.mk (List.replicate (3 - s.length) '0') ++ s

/-- Local destination filename of a scene video (server.js line 242):
`video_` + `String(scene_number).padStart(3, 0)` + `.mp4` — derived solely
from the scene number. -/
def videoFileName (n : Int) : String :=
  "video_" ++ padStart3 (toString n) ++ ".mp4"

/-- `path.join(jobDir, videoFileName)` for a scene entry. -/
def videoPath (jobDir : String) (v : SceneEntry) : String :=
  jobDir ++ "/" ++ videoFileName v.scene_number

/-- The sequential download loop (server.js lines 239-246): scenes are
fetched in sorted order, each written to its derived path; a later download
to the same path overwrites the earlier file.  `fetch` abstracts the remote
content behind a URL; the store maps local paths to file contents. -/
def downloadScenes {α : Type} (fetch : String → α) (jobDir : String)
    (vs : List SceneEntry) (store : String → Option α) : String → Option α :=
  vs.foldl
    (fun m v => fun q =>
      if q = videoPath jobDir v then some (fetch v.final_video_url) else m q)
    store

/-- The `videoPaths` array accumulated by the loop: the concatenation input
order handed to `stitchVideos`. -/
def stitchInputPaths (jobDir : String) (vs : List SceneEntry) : List String :=
  (sortScenes vs).map (videoPath jobDir)

/-- Contents the concatenation step reads: the paths of `videoPaths`, in
order, looked up in the store left behind by the downloads (which run over
the sorted array, starting from an empty job directory). -/
def concatInputs {α : Type} (fetch : String → α) (jobDir : String)
    (vs : List SceneEntry) : List (Option α) :=
  (stitchInputPaths jobDir vs).map
    (downloadScenes fetch jobDir (sortScenes vs) (fun _ => none))

/-- The `sceneOrder` field of the stitch response:
`sortedVideos.map(v => parseInt(v.scene_number, 10))`. -/
def sceneOrder (vs : List SceneEntry) : List Int :=
  (sortScenes vs).map sceneKey

/-- Lookup after the download loop: the last entry of the list whose derived
path equals `p` wins; if none matches, the store is unchanged at `p`. -/
theorem downloadScenes_lookup {α : Type} (fetch : String → α) (jobDir : String)
    (vs : List SceneEntry) (store : String → Option α) (p : String) :
    downloadScenes fetch jobDir vs store p =
      (match (vs.reverse.find? (fun v => videoPath jobDir v == p)) with
        | some v => some (fetch v.final_video_url)
        | none => store p) := by
  induction vs generalizing store with
  | nil => rfl
  | cons v tl ih =>
    show downloadScenes fetch jobDir tl _ p = _
    rw [ih]
    simp only [List.reverse_cons, List.find?_append]
    cases htl : tl.reverse.find? (fun w => videoPath jobDir w == p) with
    | some w => simp
    | none =>
      simp only [Option.orElse_none, Option.none_orElse, List.find?_cons,
        List.find?_nil]
      by_cases hp : videoPath jobDir v == p
      · have : p = videoPath jobDir v := (eq_of_beq hp).symm
        simp [hp, this]
      · have : ¬ p = videoPath jobDir v := fun h => hp (beq_iff_eq.mpr h.symm)
        simp [hp, this]

/-- Distinct parsed keys make the sorted array strictly ascending. -/
theorem sortScenes_strictSorted (vs : List SceneEntry)
    (h : (vs.map sceneKey).Nodup) : List.Sorted sceneLT (sortScenes vs) := by
  have hle : List.Sorted sceneLE (sortScenes vs) :=
    List.sorted_insertionSort sceneLE vs
  have hperm : List.Perm (sortScenes vs) vs := List.perm_insertionSort sceneLE vs
  have hmap : List.Perm ((sortScenes vs).map sceneKey) (vs.map sceneKey) := hperm.map _
  have hnd : ((sortScenes vs).map sceneKey).Pairwise (· ≠ ·) :=
    (hmap.nodup_iff.mpr h)
  have hne : (sortScenes vs).Pairwise (fun a b => sceneKey a ≠ sceneKey b) :=
    List.pairwise_map.mp hnd
  exact (hle.and hne).imp (fun hab => lt_of_le_of_ne hab.1 hab.2)

/-- Sorting is determined by the multiset of entries when keys are distinct:
any two input orders sort to the same array. -/
theorem sortScenes_perm_invariant (vs ws : List SceneEntry)
    (hperm : List.Perm vs ws) (h : (vs.map sceneKey).Nodup) :
    sortScenes vs = sortScenes ws := by
  have h2 : (ws.map sceneKey).Nodup := ((hperm.map sceneKey).nodup_iff).mp h
  exact List.eq_of_perm_of_sorted
    ((List.perm_insertionSort sceneLE vs).trans
      (hperm.trans (List.perm_insertionSort sceneLE ws).symm))
    (sortScenes_strictSorted vs h) (sortScenes_strictSorted ws h2)

/-! ## Stream endpoint (server.js lines 319-356, part_000 lines 551-591) -/

/-- Digit-prefix value: the longest leading run of decimal digits, `none`
when it is empty. -/
def digitsVal (cs : List Char) : Option Nat :=
  let ds := cs.takeWhile Char.isDigit
  if ds.isEmpty then none
  else some (ds.foldl (fun acc c => 10 * acc + (c.toNat - 48)) 0)

/-- JS `parseInt(s, 10)`: skip leading spaces, read an optional sign and the
longest digit prefix; `none` models NaN. -/
def jsParseInt (s : String) : Option Int :=
  match s.data.dropWhile (fun c => c = ' ') with
  | '-' :: rest => (digitsVal rest).map (fun n => -(n : Int))
  | '+' :: rest => (digitsVal rest).map (fun n => (n : Int))
  | rest => (digitsVal rest).map (fun n => (n : Int))

/-- Subtraction propagating NaN, as JS arithmetic does. -/
def optSub : Option Int → Option Int → Option Int
  | some a, some b => some (a - b)
  | _, _ => none

/-- Addition propagating NaN, as JS arithmetic does. -/
def optAdd : Option Int → Option Int → Option Int
  | some a, some b => some (a + b)
  | _, _ => none

/-- Rendering of a possibly-NaN number inside a template literal. -/
def renderNum : Option Int → String
  | some n => toString n
  | none => "NaN"

/-- Removal of the first occurrence of `pat` from a character list. -/
def replaceFirstChars (pat : List Char) : List Char → List Char
  | [] => []
  | c :: cs =>
    if List.isPrefixOf pat (c :: cs) then (c :: cs).drop pat.length
    else c :: replaceFirstChars pat cs

/-- JS `s.replace(/bytes=/, emptyString)`: removes only the first match. -/
def stringReplaceFirst (s pat : String) : String :=
  String.mk (replaceFirstChars pat.data s.data)

/-- JS `s.split(sep)` for a one-character separator: split at every
occurrence, keeping empty pieces. -/
def splitOnChar (sep : Char) : List Char → List (List Char)
  | [] => [[]]
  | c :: rest =>
    if c = sep then [] :: splitOnChar sep rest
    else
      match splitOnChar sep rest with
      | [] => [[c]]
      | h :: t => (c :: h) :: t

/-- The split parts of the range header after stripping `bytes=`
(server.js line 336). -/
def rangeParts (r : String) : List String :=
  (splitOnChar '-' (stringReplaceFirst r "bytes=").data).map String.mk

/-- `parseInt(parts[0], 10)` (server.js line 337). -/
def rangeStart (r : String) : Option Int :=
  jsParseInt ((rangeParts r).headD "")

/-- `parts[1] ? parseInt(parts[1], 10) : stats.size - 1` (server.js
line 338): a missing or empty second part — the open-ended range — defaults
to the last byte of the file. -/
def rangeEnd (r : String) (size : Int) : Option Int :=
  match (rangeParts r).drop 1 with
  | [] => some (size - 1)
  | p :: _ => if p = "" then some (size - 1) else jsParseInt p

/-- `chunkSize = (end - start) + 1` (server.js line 339), unvalidated. -/
def rangeChunkSize (r : String) (size : Int) : Option Int :=
  optAdd (optSub (rangeEnd r size) (rangeStart r)) (some 1)

/-- Offsets the `fs.createReadStream` constructor accepts: both must be
actual numbers, nonnegative, with start ≤ end; on anything else (NaN
offsets or an inverted window) the constructor throws `ERR_OUT_OF_RANGE`
synchronously, before any byte is read. -/
def readStreamOffsetsOk : Option Int → Option Int → Bool
  | some s, some e => decide (0 ≤ s) && decide (s ≤ e)
  | _, _ => false

/-- Bytes a successfully constructed read stream delivers: the inclusive
slice from start to end, truncated at end of file (a read past EOF simply
ends with no data). -/
def sliceBytes (content : List Nat) (s e : Int) : List Nat :=
  (content.drop s.toNat).take (e - s + 1).toNat

/-- Response assembled by the stream endpoint. -/
structure StreamResp where
  status : Nat
  contentRange : Option String
  acceptRanges : Option String
  contentLength : Option String
  body : List Nat
deriving DecidableEq, Repr

/-- The Content-Range header value the handler sets (server.js line 342)
from the unvalidated parsed numbers. -/
def contentRangeHeader (r : String) (size : Int) : String :=
  "bytes " ++ renderNum (rangeStart r) ++ "-" ++ renderNum (rangeEnd r size) ++
    "/" ++ toString size

/-- The range branch of the stream handler (server.js lines 336-348):
status 206 and the Content-Range, Accept-Ranges, Content-Length headers are
set from the raw parsed numbers with no validation; then
`createReadStream(filePath, start, end)` runs.  If its constructor accepts
the offsets, the bounded read is piped out; if it throws (inverted window or
NaN offset), the handler's catch block overrides the status with 404 and
sends the error JSON — the already-set Content-Range and Accept-Ranges
headers remain on the response, while Content-Length is re-set by the
framework for the error body (not modelled). -/
def rangeResponse (content : List Nat) (r : String) : StreamResp :=
  if readStreamOffsetsOk (rangeStart r) (rangeEnd r (content.length : Int)) then
    { status := 206,
      contentRange := some (contentRangeHeader r (content.length : Int)),
      acceptRanges := some "bytes",
      contentLength := some (renderNum (rangeChunkSize r (content.length : Int))),
      body := sliceBytes content ((rangeStart r).getD 0)
        ((rangeEnd r (content.length : Int)).getD 0) }
  else
    { status := 404,
      contentRange := some (contentRangeHeader r (content.length : Int)),
      acceptRanges := some "bytes",
      contentLength := none,
      body := [] }

/-- GET /stream/:jobId handler (server.js lines 319-356): 404 when the
artifact is missing; the whole file with `Accept-Ranges: bytes` when no
Range header is present; otherwise the range branch above — the handler
itself never validates the parsed offsets and has no 416 branch. -/
def streamHandler (artifactPresent : Bool) (content : List Nat)
    (rangeHeader : Option String) : StreamResp :=
  if artifactPresent = false then
    { status := 404, contentRange := none, acceptRanges := none,
      contentLength := none, body := [] }
  else
    match rangeHeader with
    | none =>
      { status := 200, contentRange := none, acceptRanges := some "bytes",
        contentLength := some (toString content.length), body := content }
    | some r => rangeResponse content r

/-! ## Job lifecycle and working-directory cleanup (C3) -/

/-- Exit state of a handler run: HTTP status of the response, the `success`
flag of the JSON body, and whether the per-job working directory still
exists afterwards. -/
structure JobExit where
  httpStatus : Nat
  success : Bool
  dirPresent : Bool
deriving DecidableEq, Repr

/-- Control flow shared by the server.js and part_000 handlers: mkdir the
job directory, run the pipeline stages in order inside `try`; on success
remove the directory with a plain `await` (whose failure falls through to
`catch`) and answer 200; in `catch`, retry the removal inside
`try {} catch (_) {}` — its failure swallowed — and answer 500. -/
def runJobWithCatchCleanup (stages : List Bool) (rmOk : Bool) : JobExit :=
  if stages.all (fun b => b) then
    if rmOk then { httpStatus := 200, success := true, dirPresent := false }
    else { httpStatus := 500, success := false, dirPresent := true }
  else
    { httpStatus := 500, success := false, dirPresent := !rmOk }

/-- Control flow of the part_001 handlers: same `try` body, but the `catch`
block (part_001 lines 285-293, 342-349 and 431-438) sends the 500 response
without removing the job directory. -/
def runJobNoCatchCleanup (stages : List Bool) (rmOk : Bool) : JobExit :=
  if stages.all (fun b => b) then
    if rmOk then { httpStatus := 200, success := true, dirPresent := false }
    else { httpStatus := 500, success := false, dirPresent := true }
  else
    { httpStatus := 500, success := false, dirPresent := true }

/-- Outcomes of the fallible stages of a single-video (add-overlay) job, in
source order: downloads, duration probe (false also covers a null probed
duration), trim, combine, final probe and stat. -/
structure SingleStages where
  downloadVideo : Bool
  downloadAudio : Bool
  probeDuration : Bool
  trim : Bool
  combine : Bool
  probeFinal : Bool
  statFinal : Bool
deriving DecidableEq, Repr

/-- Stage outcomes of a single-video job in execution order. -/
def singleStageList (e : SingleStages) : List Bool :=
  [e.downloadVideo, e.downloadAudio, e.probeDuration, e.trim, e.combine,
    e.probeFinal, e.statFinal]

/-- Outcomes of the fallible stages of a stitch job, in source order. -/
structure StitchStages where
  downloadAudio : Bool
  downloadVideos : Bool
  stitch : Bool
  probeStitched : Bool
  trim : Bool
  combine : Bool
  probeFinal : Bool
  statFinal : Bool
deriving DecidableEq, Repr

/-- Stage outcomes of a stitch job in execution order. -/
def stitchStageList (e : StitchStages) : List Bool :=
  [e.downloadAudio, e.downloadVideos, e.stitch, e.probeStitched, e.trim,
    e.combine, e.probeFinal, e.statFinal]

/-- Outcomes of the fallible stages of an image-overlay job, in source
order (the composite stage is false only when the engine failed and the
fallback copy also failed, since the engine failure alone resolves). -/
structure ImageStages where
  downloadBase : Bool
  downloadOverlay : Bool
  composite : Bool
  statFinal : Bool
deriving DecidableEq, Repr

/-- Stage outcomes of an image-overlay job in execution order. -/
def imageStageList (e : ImageStages) : List Bool :=
  [e.downloadBase, e.downloadOverlay, e.composite, e.statFinal]

/-- server.js POST /api/add-overlay (lines 147-208). -/
def serverJsAddOverlayRun (e : SingleStages) (rmOk : Bool) : JobExit :=
  runJobWithCatchCleanup (singleStageList e) rmOk

/-- server.js POST /api/stitch-videos (lines 212-292). -/
def serverJsStitchRun (e : StitchStages) (rmOk : Bool) : JobExit :=
  runJobWithCatchCleanup (stitchStageList e) rmOk

/-- part_000 POST /api/add-overlay (lines 259-332). -/
def part000AddOverlayRun (e : SingleStages) (rmOk : Bool) : JobExit :=
  runJobWithCatchCleanup (singleStageList e) rmOk

/-- part_000 POST /api/stitch-videos (lines 392-483). -/
def part000StitchRun (e : StitchStages) (rmOk : Bool) : JobExit :=
  runJobWithCatchCleanup (stitchStageList e) rmOk

/-- part_000 POST /api/add-image-overlay (lines 334-390). -/
def part000ImageOverlayRun (e : ImageStages) (rmOk : Bool) : JobExit :=
  runJobWithCatchCleanup (imageStageList e) rmOk

/-- part_001 POST /api/add-overlay (lines 225-293): no removal in catch. -/
def part001AddOverlayRun (e : SingleStages) (rmOk : Bool) : JobExit :=
  runJobNoCatchCleanup (singleStageList e) rmOk

/-- part_001 POST /api/stitch-videos (lines 352-439): no removal in catch. -/
def part001StitchRun (e : StitchStages) (rmOk : Bool) : JobExit :=
  runJobNoCatchCleanup (stitchStageList e) rmOk

/-- part_001 POST /api/add-image-overlay (lines 295-350): no removal in
catch. -/
def part001ImageOverlayRun (e : ImageStages) (rmOk : Bool) : JobExit :=
  runJobNoCatchCleanup (imageStageList e) rmOk

/-! ## Image overlay fallback and response (C4) -/

/-- Image content values: fetched from a URL or composited by the engine. -/
inductive ImageContent
  | fetched (url : String)
  | composited (base overlay : ImageContent)
deriving DecidableEq, Repr

/-- addOverlayToImage (part_000 lines 214-255): on engine success the output
is the composite; on engine failure the unmodified base image is copied to
the output path and the promise still resolves, unless that copy itself
fails, which rejects. -/
def addOverlayToImage (engineOk copyOk : Bool)
    (base overlay : ImageContent) : Option ImageContent :=
  if engineOk then some (ImageContent.composited base overlay)
  else if copyOk then some base
  else none

/-- Result of an add-image-overlay job: the HTTP status, the `success` flag,
the `overlayApplied` field of the success body (`none` on the 500 path), and
the artifact written to the output directory. -/
structure ImageJobResult where
  httpStatus : Nat
  success : Bool
  overlayApplied : Option Bool
  artifact : Option ImageContent
deriving DecidableEq, Repr

/-- POST /api/add-image-overlay (part_000 lines 334-390): download both
images, composite (with the internal fallback), stat and clean up; the
success response hardcodes `overlayApplied: true` (line 377) whether or not
the engine fell back to the plain base image. -/
def imageOverlayHandler (dlBase dlOverlay engineOk copyOk statOk rmOk : Bool)
    (baseUrl overlayUrl : String) : ImageJobResult :=
  if dlBase = false then
    { httpStatus := 500, success := false, overlayApplied := none, artifact := none }
  else if dlOverlay = false then
    { httpStatus := 500, success := false, overlayApplied := none, artifact := none }
  else
    match addOverlayToImage engineOk copyOk
        (ImageContent.fetched baseUrl) (ImageContent.fetched overlayUrl) with
    | none =>
      { httpStatus := 500, success := false, overlayApplied := none, artifact := none }
    | some out =>
      if statOk = false then
        { httpStatus := 500, success := false, overlayApplied := none,
          artifact := some out }
      else if rmOk = false then
        { httpStatus := 500, success := false, overlayApplied := none,
          artifact := some out }
      else
        { httpStatus := 200, success := true, overlayApplied := some true,
          artifact := some out }

/-! ## Audio/overlay command construction and responses (C6) -/

/-- The ffmpeg placement expression strings exactly as the position switch
builds them (part_000 lines 144-163): x and y are either the margin string
or the frame-relative expressions. -/
def overlayExprXY (position margin : String) : String × String :=
  if position = "top-left" then (margin, margin)
  else if position = "top-right" then ("W-w-" ++ margin, margin)
  else if position = "bottom-left" then (margin, "H-h-" ++ margin)
  else ("W-w-" ++ margin, "H-h-" ++ margin)

/-- Shape of the command handed to the engine: the optional third input
(overlay image), the complex filters, and the output options. -/
structure FfmpegCommand where
  extraInput : Option String
  complexFilters : List String
  outputOptions : List String
deriving DecidableEq, Repr

/-- Command built by `addAudioAndOverlayToVideo` (part_000 lines 127-212;
part_001 lines 125-181 is identical up to the output pad label): with an
overlay image the video is filtered through scale and overlay nodes and
re-encoded; without one the video stream is mapped directly with
`-c:v copy` and only the music stream is mapped as audio. -/
def addAudioAndOverlayToVideoCmd (overlayImagePath : Option String)
    (opts : OverlayOptions) : FfmpegCommand :=
  match overlayImagePath with
  | some p =>
    { extraInput := some p
      complexFilters :=
        ["[1:a]volume=1.0[music]",
          "[2:v]scale=" ++ toString (opts.size.getD 150) ++ ":-1[overlay]",
          "[0:v][overlay]overlay=" ++
            (overlayExprXY (effectivePosition opts)
              (toString (effectiveMargin opts))).1 ++ ":" ++
            (overlayExprXY (effectivePosition opts)
              (toString (effectiveMargin opts))).2 ++
            ":format=auto,format=yuv420p[vout]"]
      outputOptions := ["-map", "[vout]", "-map", "[music]", "-c:a", "aac",
        "-shortest"] }
  | none =>
    { extraInput := none
      complexFilters := ["[1:a]volume=1.0[music]"]
      outputOptions := ["-map", "0:v:0", "-map", "[music]", "-c:v", "copy",
        "-c:a", "aac", "-shortest"] }

/-- Stream selectors of the `-map` output options, in order. -/
def mapTargets : List String → List String
  | [] => []
  | "-map" :: v :: rest => v :: mapTargets rest
  | _ :: rest => mapTargets rest

/-- The `overlayApplied` value of the part_000 and part_001 add-overlay and
stitch responses: `!!overlay_image_url`. -/
def overlayAppliedFlag (overlayImageUrl : Option String) : Bool :=
  overlayImageUrl.isSome

/-- Keys of the success response body of part_000 POST /api/add-overlay
(lines 308-320). -/
def part000AddOverlayResponseKeys : List String :=
  ["success", "jobId", "downloadUrl", "finalVideoUrl", "videoStats",
    "overlayApplied", "message"]

/-- Keys of the success response body of server.js POST /api/add-overlay
(lines 186-197): the body carries no overlayApplied field at all. -/
def serverJsAddOverlayResponseKeys : List String :=
  ["success", "jobId", "downloadUrl", "finalVideoUrl", "videoStats",
    "message"]

/-! ## Status endpoint and durable artifacts (C10) -/

/-- Names of artifacts in the durable output directory; the string renders
are `final_video_<jobId>.mp4` and `final_image_<jobId>.png`. -/
inductive ArtifactName
  | video (jobId : String)
  | image (jobId : String)
deriving DecidableEq, Repr

/-- GET /api/status/:jobId (part_000 lines 593-634, identical in server.js
lines 359-401): completion is decided solely by accessibility of
`final_video_<jobId>.mp4` (probe/stat failure on an accessible file also
answers processing); any other state answers `processing` with
`completed: false`. -/
def statusHandler (outputStore : List ArtifactName) (jobId : String)
    (statOk : Bool) : String × Bool :=
  if ArtifactName.video jobId ∈ outputStore ∧ statOk = true then
    ("completed", true)
  else ("processing", false)

/-- Durable effect of a successful image-overlay job (part_000 line 359):
the only artifact written is `final_image_<jobId>.png`. -/
def imageJobArtifacts (outputStore : List ArtifactName) (jobId : String) :
    List ArtifactName :=
  ArtifactName.image jobId :: outputStore

/-! ## Theorems for claims C1, C2, C7 and C8 -/

/-- C2: the concatenation order fed to stitching is the scenes sorted
ascending by numeric scene number, independent of the input array order; on
scenes `[(3, c), (1, a), (2, b)]` the concatenated contents are those of
`a`, `b`, `c` and `sceneOrder` is `[1, 2, 3]`. -/
theorem C2_stitch_concat_order :
    (∀ vs, List.Perm (sortScenes vs) vs) ∧
    (∀ vs, (vs.map sceneKey).Nodup → List.Sorted sceneLT (sortScenes vs)) ∧
    (∀ vs ws, List.Perm vs ws → (vs.map sceneKey).Nodup →
      sortScenes vs = sortScenes ws) ∧
    sortScenes [⟨3, "c"⟩, ⟨1, "a"⟩, ⟨2, "b"⟩] =
      [⟨1, "a"⟩, ⟨2, "b"⟩, ⟨3, "c"⟩] ∧
    (∀ (α : Type) (fetch : String → α),
      concatInputs fetch "/tmp/j" [⟨3, "c"⟩, ⟨1, "a"⟩, ⟨2, "b"⟩] =
        [some (fetch "a"), some (fetch "b"), some (fetch "c")]) ∧
    sceneOrder [⟨3, "c"⟩, ⟨1, "a"⟩, ⟨2, "b"⟩] = [1, 2, 3] := by
  refine ⟨List.perm_insertionSort sceneLE, sortScenes_strictSorted,
    sortScenes_perm_invariant, by decide, fun α fetch => rfl, by decide⟩

/-- Witness for C2: the two hypothesis-bearing conjuncts applied to the
concrete example — a permuted input sorts to the same array, and the sorted
array is strictly ascending in scene number. -/
theorem C2_stitch_concat_order_witness :
    sortScenes [⟨1, "a"⟩, ⟨2, "b"⟩, ⟨3, "c"⟩] =
      sortScenes [⟨3, "c"⟩, ⟨1, "a"⟩, ⟨2, "b"⟩] ∧
    List.Sorted sceneLT (sortScenes [⟨3, "c"⟩, ⟨1, "a"⟩, ⟨2, "b"⟩]) := by
  have h := C2_stitch_concat_order
  exact ⟨h.2.2.1 _ _ (by decide) (by decide), h.2.1 _ (by decide)⟩

/-- C8: the local destination filename of a scene is derived solely from its
scene number, so two entries sharing a scene number map to the same path;
the downloads run in order and the later one overwrites the earlier file
(last writer wins), and the concatenation input list holds that one path
twice, both reads yielding the later-listed content. -/
theorem C8_duplicate_scene_overwrite :
    (∀ jobDir v, videoPath jobDir v = jobDir ++ "/" ++ videoFileName v.scene_number) ∧
    (∀ (α : Type) (fetch : String → α) (jobDir : String) vs store p,
      downloadScenes fetch jobDir vs store p =
        (match vs.reverse.find? (fun v => videoPath jobDir v == p) with
          | some v => some (fetch v.final_video_url)
          | none => store p)) ∧
    (∀ (k : Int) (u₁ u₂ jobDir : String),
      sortScenes [⟨k, u₁⟩, ⟨k, u₂⟩] = [⟨k, u₁⟩, ⟨k, u₂⟩] ∧
      stitchInputPaths jobDir [⟨k, u₁⟩, ⟨k, u₂⟩] =
        [videoPath jobDir ⟨k, u₁⟩, videoPath jobDir ⟨k, u₁⟩] ∧
      (∀ (α : Type) (fetch : String → α),
        concatInputs fetch jobDir [⟨k, u₁⟩, ⟨k, u₂⟩] =
          [some (fetch u₂), some (fetch u₂)])) := by
  refine ⟨fun _ _ => rfl, fun α fetch jobDir vs store p =>
    downloadScenes_lookup fetch jobDir vs store p, fun k u₁ u₂ jobDir => ?_⟩
  have hsort : sortScenes [⟨k, u₁⟩, ⟨k, u₂⟩] = [⟨k, u₁⟩, ⟨k, u₂⟩] := by
    simp [sortScenes, sceneLE]
  refine ⟨hsort, ?_, ?_⟩
  · simp [stitchInputPaths, hsort, videoPath]
  · intro α fetch
    simp [concatInputs, stitchInputPaths, hsort, downloadScenes, videoPath]

/-! ## Theorems for claims C1 and C7 -/

/-- C1: for single-video and stitch jobs the pipeline trims the audio from
offset 0 to the probed video duration, combines under the shortest policy
(the command carries `-shortest`), and the artifact audio-track duration is
`min(probed video duration, probed audio duration)`. -/
theorem C1_audio_duration_min (videoDur audioDur stitchedDur : ℚ) :
    trimAudioCall videoDur = { startTime := 0, targetDuration := videoDur } ∧
    "-shortest" ∈ addAudioToVideoOutputOptions ∧
    singleVariantAudioLen videoDur audioDur = min videoDur audioDur ∧
    stitchVariantAudioLen stitchedDur audioDur = min stitchedDur audioDur := by
  refine ⟨rfl, by decide, ?_, ?_⟩ <;>
    simp [singleVariantAudioLen, stitchVariantAudioLen, engineShortestLen,
      engineTrimLen, trimAudioCall, min_comm audioDur, ← min_assoc]

/-- C7: the placement switch sends top-left to `(margin, margin)`, top-right
to `(W-w-margin, margin)`, bottom-left to `(margin, H-h-margin)`, and
bottom-right — also the default for an absent or unrecognized position — to
`(W-w-margin, H-h-margin)`; in particular top-left with margin 20 places the
overlay at `(20, 20)`. -/
theorem C7_overlay_placement :
    (∀ m W H w h : Int, overlayPlacement "top-left" m W H w h = (m, m)) ∧
    (∀ m W H w h : Int,
      overlayPlacement "top-right" m W H w h = (W - w - m, m)) ∧
    (∀ m W H w h : Int,
      overlayPlacement "bottom-left" m W H w h = (m, H - h - m)) ∧
    (∀ m W H w h : Int,
      overlayPlacement "bottom-right" m W H w h = (W - w - m, H - h - m)) ∧
    (∀ p : String, p ≠ "top-left" → p ≠ "top-right" → p ≠ "bottom-left" →
      ∀ m W H w h : Int, overlayPlacement p m W H w h = (W - w - m, H - h - m)) ∧
    effectivePosition {} = "bottom-right" ∧
    (∀ W H w h : Int, overlayPlacement "top-left" 20 W H w h = (20, 20)) ∧
    (∀ h : Int,
      overlayPlacement "bottom-right" 20 1920 1080 150 h = (1750, 1080 - h - 20)) := by
  refine ⟨?_, ?_, ?_, ?_, ?_, rfl, ?_, ?_⟩ <;>
    intros <;> simp_all [overlayPlacement]

/-- Witness for C7: the default case applies to the concrete unrecognized
position `center`, yielding the bottom-right placement. -/
theorem C7_overlay_placement_witness :
    overlayPlacement "center" 20 1920 1080 150 40 = (1750, 1020) := by
  have h := C7_overlay_placement
  have := h.2.2.2.2.1 "center" (by decide) (by decide) (by decide) 20 1920 1080 150 40
  simpa using this

/-- C5: against an existing artifact, a request without a Range header gets
the whole file with `Accept-Ranges: bytes`; an open-ended range defaults its
end to the last byte of the file; and `bytes=100-199` against a 1000-byte
artifact yields status 206, `Content-Range: bytes 100-199/1000` and a body
of exactly 100 bytes. -/
theorem C5_stream_range_semantics :
    (∀ content : List Nat, streamHandler true content none =
      { status := 200, contentRange := none, acceptRanges := some "bytes",
        contentLength := some (toString content.length), body := content }) ∧
    (∀ size : Int, rangeEnd "bytes=100-" size = some (size - 1)) ∧
    (∀ content : List Nat, content.length = 1000 →
      (streamHandler true content (some "bytes=100-199")).status = 206 ∧
      (streamHandler true content (some "bytes=100-199")).contentRange =
        some "bytes 100-199/1000" ∧
      (streamHandler true content (some "bytes=100-199")).body.length = 100) := by
  have hs : rangeStart "bytes=100-199" = some 100 := by decide
  refine ⟨fun _ => rfl, fun _ => rfl, fun content h => ⟨rfl, ?_, ?_⟩⟩
  · show some (contentRangeHeader "bytes=100-199" (content.length : Int)) =
      some "bytes 100-199/1000"
    rw [h]; rfl
  · show (sliceBytes content ((rangeStart "bytes=100-199").getD 0)
      ((rangeEnd "bytes=100-199" (content.length : Int)).getD 0)).length = 100
    have he : rangeEnd "bytes=100-199" (content.length : Int) = some 199 := rfl
    rw [hs, he]
    simp [sliceBytes, h]

/-- Witness for C5: the concrete 1000-byte artifact `List.range 1000`
satisfies the range conjunct. -/
theorem C5_stream_range_semantics_witness :
    (streamHandler true (List.range 1000) (some "bytes=100-199")).status = 206 ∧
    (streamHandler true (List.range 1000) (some "bytes=100-199")).contentRange =
      some "bytes 100-199/1000" ∧
    (streamHandler true (List.range 1000) (some "bytes=100-199")).body.length = 100 :=
  C5_stream_range_semantics.2.2 (List.range 1000) (by simp)

set_option maxRecDepth 8192 in
/-- C9 counterexample: on a 1000-byte artifact both of the claim's example
ranges end as HTTP 404, not 206 — the read-stream constructor rejects a
start beyond the end (`bytes=5000-` defaults its open end to 999) and the
handler's catch block answers the 404 error response. -/
theorem C9_range_206_counterexample :
    (streamHandler true (List.replicate 1000 0) (some "bytes=2000-100")).status = 404 ∧
    (streamHandler true (List.replicate 1000 0) (some "bytes=2000-100")).status ≠ 206 ∧
    (streamHandler true (List.replicate 1000 0) (some "bytes=5000-")).status = 404 := by
  refine ⟨rfl, by decide, by decide⟩

/-- C9 (amended): the handler itself performs no validation of the parsed
byte range — the raw numbers go into the Content-Range header and into the
Content-Length computation, which can be negative, and no branch of the
endpoint answers HTTP 416 — but a range whose parsed start exceeds its
parsed end (`bytes=2000-100`, or `bytes=5000-` whose open end defaults to
999 on a 1000-byte artifact) makes the read-stream constructor throw, and
the catch block answers HTTP 404 rather than completing the 206. -/
theorem C9_range_unvalidated_then_404 :
    (∀ content : List Nat, content.length = 1000 →
      (streamHandler true content (some "bytes=2000-100")).status = 404 ∧
      (streamHandler true content (some "bytes=2000-100")).contentRange =
        some "bytes 2000-100/1000" ∧
      rangeChunkSize "bytes=2000-100" (content.length : Int) = some (-1899)) ∧
    (∀ content : List Nat, content.length = 1000 →
      (streamHandler true content (some "bytes=5000-")).status = 404 ∧
      (streamHandler true content (some "bytes=5000-")).contentRange =
        some "bytes 5000-999/1000" ∧
      rangeChunkSize "bytes=5000-" (content.length : Int) = some (-4000)) ∧
    (∀ (present : Bool) (content : List Nat) (rangeHeader : Option String),
      (streamHandler present content rangeHeader).status ≠ 416) := by
  refine ⟨fun content h => ⟨rfl, ?_, ?_⟩, fun content h => ?_, ?_⟩
  · show some (contentRangeHeader "bytes=2000-100" (content.length : Int)) =
      some "bytes 2000-100/1000"
    rw [h]; rfl
  · show rangeChunkSize "bytes=2000-100" (content.length : Int) = some (-1899)
    rw [h]; rfl
  · have hcond : readStreamOffsetsOk (rangeStart "bytes=5000-")
        (rangeEnd "bytes=5000-" (content.length : Int)) = false := by
      rw [h]; decide
    have hresp : streamHandler true content (some "bytes=5000-") =
        { status := 404,
          contentRange :=
            some (contentRangeHeader "bytes=5000-" (content.length : Int)),
          acceptRanges := some "bytes", contentLength := none, body := [] } := by
      show rangeResponse content "bytes=5000-" = _
      unfold rangeResponse
      rw [hcond]
      simp
    refine ⟨by rw [hresp], ?_, by rw [h]; rfl⟩
    rw [hresp]
    show some (contentRangeHeader "bytes=5000-" (content.length : Int)) =
      some "bytes 5000-999/1000"
    rw [h]; rfl
  · intro present content rangeHeader
    cases present with
    | false => simp [streamHandler]
    | true =>
      cases rangeHeader with
      | none => simp [streamHandler]
      | some r =>
        show (rangeResponse content r).status ≠ 416
        unfold rangeResponse
        split <;> simp

/-- Witness for C9 (amended): the hypothesis-bearing conjuncts applied to
the concrete 1000-byte artifact `List.range 1000`. -/
theorem C9_range_unvalidated_then_404_witness :
    ((streamHandler true (List.range 1000) (some "bytes=2000-100")).status = 404 ∧
      (streamHandler true (List.range 1000) (some "bytes=2000-100")).contentRange =
        some "bytes 2000-100/1000" ∧
      rangeChunkSize "bytes=2000-100" ((List.range 1000).length : Int) =
        some (-1899)) ∧
    (streamHandler true (List.range 1000) (some "bytes=5000-")).status = 404 :=
  ⟨C9_range_unvalidated_then_404.1 (List.range 1000) (by simp),
    (C9_range_unvalidated_then_404.2.1 (List.range 1000) (by simp)).1⟩

/-- Directory state after a handler with catch-path cleanup, when removal
succeeds: absent on both the success and the failure path. -/
theorem runJobWithCatchCleanup_dirAbsent (stages : List Bool) :
    (runJobWithCatchCleanup stages true).dirPresent = false := by
  unfold runJobWithCatchCleanup
  split <;> simp

/-- Directory state after a part_001-style handler whose pipeline failed:
the catch block does not remove it. -/
theorem runJobNoCatchCleanup_dirRemains (stages : List Bool) (rmOk : Bool)
    (h : stages.all (fun b => b) = false) :
    (runJobNoCatchCleanup stages rmOk).dirPresent = true := by
  unfold runJobNoCatchCleanup
  simp [h]

/-- C3 counterexample: a stitch job in part_001 whose audio download fails
answers 500 and leaves the working directory in place, and even in
server.js a success-path removal failure flips the outcome to 500. -/
theorem C3_cleanup_counterexample :
    (part001StitchRun ⟨false, true, true, true, true, true, true, true⟩
      true).httpStatus = 500 ∧
    (part001StitchRun ⟨false, true, true, true, true, true, true, true⟩
      true).dirPresent = true ∧
    serverJsAddOverlayRun ⟨true, true, true, true, true, true, true⟩ false =
      { httpStatus := 500, success := false, dirPresent := true } := by
  decide

/-- C3 (amended): in server.js and part_000 every handler removes the
working directory on both exit paths whenever removal succeeds, and a
catch-path removal failure is swallowed without changing the 500 failure
outcome — though a success-path removal failure raises into catch and turns
the job into a 500; in part_001 a failed run never removes the working
directory. -/
theorem C3_cleanup_scoped :
    (∀ e : SingleStages, (serverJsAddOverlayRun e true).dirPresent = false ∧
      (part000AddOverlayRun e true).dirPresent = false) ∧
    (∀ e : StitchStages, (serverJsStitchRun e true).dirPresent = false ∧
      (part000StitchRun e true).dirPresent = false) ∧
    (∀ e : ImageStages, (part000ImageOverlayRun e true).dirPresent = false) ∧
    (∀ (stages : List Bool) (rmOk : Bool), stages.all (fun b => b) = false →
      (runJobWithCatchCleanup stages rmOk).httpStatus = 500 ∧
      (runJobWithCatchCleanup stages rmOk).success = false ∧
      (runJobWithCatchCleanup stages rmOk).dirPresent = !rmOk) ∧
    (∀ stages : List Bool, stages.all (fun b => b) = true →
      runJobWithCatchCleanup stages false =
        { httpStatus := 500, success := false, dirPresent := true }) ∧
    (∀ e : SingleStages, (singleStageList e).all (fun b => b) = false →
      (part001AddOverlayRun e true).dirPresent = true) ∧
    (∀ e : StitchStages, (stitchStageList e).all (fun b => b) = false →
      (part001StitchRun e true).dirPresent = true) ∧
    (∀ e : ImageStages, (imageStageList e).all (fun b => b) = false →
      (part001ImageOverlayRun e true).dirPresent = true) := by
  refine ⟨fun e => ⟨runJobWithCatchCleanup_dirAbsent _,
      runJobWithCatchCleanup_dirAbsent _⟩,
    fun e => ⟨runJobWithCatchCleanup_dirAbsent _,
      runJobWithCatchCleanup_dirAbsent _⟩,
    fun e => runJobWithCatchCleanup_dirAbsent _,
    fun stages rmOk h => ?_, fun stages h => ?_,
    fun e h => runJobNoCatchCleanup_dirRemains _ _ h,
    fun e h => runJobNoCatchCleanup_dirRemains _ _ h,
    fun e h => runJobNoCatchCleanup_dirRemains _ _ h⟩
  · unfold runJobWithCatchCleanup
    simp [h]
  · unfold runJobWithCatchCleanup
    simp [h]

/-- Witness for C3 (amended): the hypothesis-bearing conjuncts applied to
concrete stage outcomes. -/
theorem C3_cleanup_scoped_witness :
    (runJobWithCatchCleanup [false] true).httpStatus = 500 ∧
    runJobWithCatchCleanup [true] false =
      { httpStatus := 500, success := false, dirPresent := true } ∧
    (part001AddOverlayRun ⟨false, true, true, true, true, true, true⟩
      true).dirPresent = true := by
  have h := C3_cleanup_scoped
  exact ⟨(h.2.2.2.1 [false] true (by decide)).1,
    h.2.2.2.2.1 [true] (by decide),
    h.2.2.2.2.2.1 ⟨false, true, true, true, true, true, true⟩ (by decide)⟩

/-- C4 counterexample: with the engine failing and the fallback copy
succeeding, the job succeeds and the artifact is the unmodified base image,
yet the response reports `overlayApplied = true` — not `false` as the claim
states. -/
theorem C4_overlay_applied_counterexample :
    imageOverlayHandler true true false true true true "base.png" "logo.png" =
      { httpStatus := 200, success := true, overlayApplied := some true,
        artifact := some (ImageContent.fetched "base.png") } ∧
    (imageOverlayHandler true true false true true true "base.png"
      "logo.png").overlayApplied ≠ some false := by
  decide

/-- C4 (amended): on engine failure with the copy fallback available, the
pipeline copies the unmodified base image to the output path and the job
still succeeds, but the response hardcodes `overlayApplied: true`; the
degrade is not surfaced as `overlayApplied: false`. -/
theorem C4_overlay_fallback (baseUrl overlayUrl : String) :
    addOverlayToImage false true (ImageContent.fetched baseUrl)
      (ImageContent.fetched overlayUrl) = some (ImageContent.fetched baseUrl) ∧
    imageOverlayHandler true true false true true true baseUrl overlayUrl =
      { httpStatus := 200, success := true, overlayApplied := some true,
        artifact := some (ImageContent.fetched baseUrl) } :=
  ⟨rfl, rfl⟩

/-- C6 counterexample: the success response of the server.js add-overlay
handler (the single-video variant of that file) carries no overlayApplied
key at all, so the response never reports `overlayApplied = false` there. -/
theorem C6_overlay_field_counterexample :
    "overlayApplied" ∉ serverJsAddOverlayResponseKeys ∧
    "overlayApplied" ∈ part000AddOverlayResponseKeys := by
  decide

/-- C6 (amended): with overlay_image_url omitted, the command stream-copies
the video (`-c:v copy`) and maps exactly the source video stream and the
filtered music stream — the original audio of the video is never mapped —
in all three files; part_000 and part_001 report `overlayApplied: false`,
while the server.js response body omits the field entirely. -/
theorem C6_no_overlay_stream_copy (opts : OverlayOptions) :
    addAudioAndOverlayToVideoCmd none opts =
      { extraInput := none
        complexFilters := ["[1:a]volume=1.0[music]"]
        outputOptions := ["-map", "0:v:0", "-map", "[music]", "-c:v", "copy",
          "-c:a", "aac", "-shortest"] } ∧
    mapTargets (addAudioAndOverlayToVideoCmd none opts).outputOptions =
      ["0:v:0", "[music]"] ∧
    mapTargets addAudioToVideoOutputOptions = ["0:v:0", "[music]"] ∧
    "copy" ∈ addAudioToVideoOutputOptions ∧
    overlayAppliedFlag none = false ∧
    "overlayApplied" ∈ part000AddOverlayResponseKeys ∧
    "overlayApplied" ∉ serverJsAddOverlayResponseKeys := by
  exact ⟨rfl, rfl, by decide, by decide, rfl, by decide, by decide⟩

/-- C10: the status endpoint keys completion solely on the video artifact
name `final_video_<jobId>.mp4`, so after a completed image-overlay job —
whose only durable artifact is `final_image_<jobId>.png` — the status
endpoint still answers processing with `completed: false`. -/
theorem C10_status_never_sees_image (store : List ArtifactName)
    (jobId : String) (statOk : Bool)
    (h : ArtifactName.video jobId ∉ store) :
    statusHandler (imageJobArtifacts store jobId) jobId statOk =
      ("processing", false) := by
  unfold statusHandler imageJobArtifacts
  rw [if_neg]
  rintro ⟨hmem, -⟩
  rcases List.mem_cons.mp hmem with hc | hc
  · simp at hc
  · exact h hc

/-- Witness for C10: a fresh job id whose image job completed against an
empty output store is still reported as processing. -/
theorem C10_status_never_sees_image_witness :
    statusHandler (imageJobArtifacts [] "job1") "job1" true =
      ("processing", false) :=
  C10_status_never_sees_image [] "job1" true (by decide)

end LucMeme
